import Mathlib

/-!
Verification of the compatibility-scoring and discovery/recommendation core of
a dating-application backend.

The Python source is embedded shallowly:

* A database snapshot (`DB`) holds the rows of the tables that the core reads
  (`users`, `user_interests`, `user_locations`, `user_lifestyle`, `user_goals`,
  `user_blocks`, `matches`, `abuse_reports`, `user_filters`).  The core never
  writes, so one immutable snapshot per request is a faithful model.
* The PostgREST-style client is an external collaborator.  Its calls are
  modeled as pure lookups in the snapshot:
  `table(t).select(...).eq(k, v).execute().data` is a `List.filter`, and
  `....single().execute().data` is a `List.find?` (the row, or `none` when no
  row exists — the row-or-`None` interface that the source assumes everywhere
  with its `if not resp.data` checks).
* Python floats are modeled as real numbers; machine strings as `String`;
  nullable columns as `Option`.
* Rows obtained through `select("*")` carry every column of the table (a SQL
  row always has all columns, `NULL` becoming `None`), so the source's
  `if field in row` membership tests are always true for the named columns,
  and `row[f] == other[f]` compares possibly-`None` values (`None == None`
  is `True` in Python); accordingly the row structures below have one
  `Option String` field per compared column.
-/

/-- Row of the `users` table (columns the core reads). -/
structure UserRow where
  id : String
  email : String
  age : Option Int
  gender : Option String
  traits : Option (List String)
  user_values : Option (List String)
  green_flags : Option (List String)
  red_flags : Option (List String)
  lifestyle_tags : Option (List String)
  is_verified : Bool
  deleted_at : Option String
  created_at : String
deriving DecidableEq

/-- Row of the `user_interests` relation table. -/
structure InterestRow where
  user_id : String
  interest_id : String
deriving DecidableEq

/-- Row of the `user_locations` table; `latitude`/`longitude` are non-null
decimal-degree coordinates. -/
structure LocationRow where
  user_id : String
  latitude : ℝ
  longitude : ℝ

/-- Row of the `user_lifestyle` table (the four columns the scorer compares;
each is a nullable categorical string). -/
structure LifestyleRow where
  user_id : String
  smoking : Option String
  drinking : Option String
  diet : Option String
  social_lifestyle : Option String
deriving DecidableEq

/-- Row of the `user_goals` table (the three columns the scorer compares). -/
structure GoalsRow where
  user_id : String
  wants_kids : Option String
  marriage_timeline : Option String
  relationship_type : Option String
deriving DecidableEq

/-- Row of the `user_blocks` table. -/
structure BlockRow where
  blocker_id : String
  blocked_id : String
  deleted_at : Option String
deriving DecidableEq

/-- Row of the `matches` table. -/
structure MatchRow where
  user1 : String
  user2 : String
  deleted_at : Option String
deriving DecidableEq

/-- Row of the `abuse_reports` table. -/
structure ReportRow where
  reporter_id : String
  reported_id : String
  deleted_at : Option String
deriving DecidableEq

/-- Row of the `user_filters` table.  Per the data model the age bounds and
the distance bound are non-null integers/numerics with documented defaults
(18 / 50 / 30), applied by the store on insert. -/
structure FiltersRow where
  user_id : String
  min_age : Int
  max_age : Int
  max_distance_km : ℝ

/-- Snapshot of the tables read by the scoring/discovery/recommendation core. -/
structure DB where
  users : List UserRow
  user_interests : List InterestRow
  user_locations : List LocationRow
  user_lifestyle : List LifestyleRow
  user_goals : List GoalsRow
  user_blocks : List BlockRow
  match_rows : List MatchRow
  abuse_reports : List ReportRow
  user_filters : List FiltersRow

/-- `client.table("users").select("*").eq("id", uid).single().execute().data`. -/
def userFind (db : DB) (uid : String) : Option UserRow :=
  db.users.find? (fun u => u.id = uid)

/-- `client.table("user_locations").select("latitude, longitude").eq("user_id", uid).single().execute().data`. -/
def locFind (db : DB) (uid : String) : Option LocationRow :=
  db.user_locations.find? (fun l => l.user_id = uid)

/-- `client.table("user_lifestyle").select("*").eq("user_id", uid).single().execute().data`. -/
def lifeFind (db : DB) (uid : String) : Option LifestyleRow :=
  db.user_lifestyle.find? (fun l => l.user_id = uid)

/-- `client.table("user_goals").select("*").eq("user_id", uid).single().execute().data`. -/
def goalsFind (db : DB) (uid : String) : Option GoalsRow :=
  db.user_goals.find? (fun g => g.user_id = uid)

/-- `client.table("user_filters").select("*").eq("user_id", uid).single().execute().data`. -/
def filtFind (db : DB) (uid : String) : Option FiltersRow :=
  db.user_filters.find? (fun f => f.user_id = uid)

/-- The interest-id set of a user:
`{i["interest_id"] for i in client.table("user_interests").select("interest_id").eq("user_id", uid).execute().data}`. -/
def interestsSet (db : DB) (uid : String) : Finset String :=
  ((db.user_interests.filter (fun i => i.user_id = uid)).map (fun i => i.interest_id)).toFinset

/-- The values-tag set of a user row: `set(user.get("values", []) or [])`
(a missing or null or empty `values` column yields the empty set). -/
def valuesSet (u : UserRow) : Finset String :=
  (u.user_values.getD []).toFinset

/-- The values-tag set of a user id, through the profile lookup (empty when the
profile row does not exist). -/
def valuesSetOf (db : DB) (uid : String) : Finset String :=
  match userFind db uid with
  | some u => valuesSet u
  | none => ∅

/-- `math.radians(x)` — degrees to radians. -/
noncomputable def radians (x : ℝ) : ℝ :=
  x * (Real.pi / 180)

/-- `math.atan2(y, x)` — the two-argument arctangent. -/
noncomputable def atan2 (y x : ℝ) : ℝ :=
  if 0 < x then Real.arctan (y / x)
  else if x < 0 ∧ 0 ≤ y then Real.arctan (y / x) + Real.pi
  else if x < 0 ∧ y < 0 then Real.arctan (y / x) - Real.pi
  else if x = 0 ∧ 0 < y then Real.pi / 2
  else if x = 0 ∧ y < 0 then -(Real.pi / 2)
  else 0

/-- `haversine_distance(lat1, lon1, lat2, lon2)` from `app/services/matching.py`:
great-circle distance in km with Earth radius 6371. -/
noncomputable def haversine_distance (lat1 lon1 lat2 lon2 : ℝ) : ℝ :=
  let R : ℝ := 6371
  let lat1_rad := radians lat1
  let lat2_rad := radians lat2
  let delta_lat := radians (lat2 - lat1)
  let delta_lon := radians (lon2 - lon1)
  let a := Real.sin (delta_lat / 2) ^ 2 +
    Real.cos lat1_rad * Real.cos lat2_rad * Real.sin (delta_lon / 2) ^ 2
  let c := 2 * atan2 (Real.sqrt a) (Real.sqrt (1 - a))
  R * c

/-- Set-overlap scorer, as inlined twice in `calculate_compatibility_score`
(matching.py lines 37–42 for interests, 48–53 for values):

```
if set1 and set2:
    shared = len(set1 & set2)
    total = max(len(set1), len(set2))
    score = (shared / total) * W if total > 0 else 0
else:
    score = 0
``` -/
noncomputable def overlapScore {α : Type} [DecidableEq α] (set1 set2 : Finset α) (W : ℝ) : ℝ :=
  if set1.Nonempty ∧ set2.Nonempty then
    (if 0 < max set1.card set2.card then
      (((set1 ∩ set2).card : ℝ) / (max set1.card set2.card : ℕ)) * W
     else 0)
  else 0

/-- Number of equal fields among the four lifestyle columns compared by the
scorer (`smoking`, `drinking`, `diet`, `social_lifestyle`); rows from
`select("*")` always contain all four keys, so every field is checked. -/
def lifestyleMatchCount (r1 r2 : LifestyleRow) : ℕ :=
  (if r1.smoking = r2.smoking then 1 else 0) +
  (if r1.drinking = r2.drinking then 1 else 0) +
  (if r1.diet = r2.diet then 1 else 0) +
  (if r1.social_lifestyle = r2.social_lifestyle then 1 else 0)

/-- Number of equal fields among the three goals columns compared by the scorer
(`wants_kids`, `marriage_timeline`, `relationship_type`). -/
def goalsMatchCount (r1 r2 : GoalsRow) : ℕ :=
  (if r1.wants_kids = r2.wants_kids then 1 else 0) +
  (if r1.marriage_timeline = r2.marriage_timeline then 1 else 0) +
  (if r1.relationship_type = r2.relationship_type then 1 else 0)

/-- `calculate_compatibility_score(user1_id, user2_id)` from
`app/services/matching.py` (lines 5–119).  Returns
`(compatibility_score, match_percentage)`; both users missing a profile row
short-circuits to `(0.0, 0.0)`.  The location factor is wrapped in its own
`try` in the source; in this pure model the only failure it guards
(a missing location row) is the `none` branch of the match. -/
noncomputable def calculate_compatibility_score (db : DB) (user1_id user2_id : String) : ℝ × ℝ :=
  match userFind db user1_id, userFind db user2_id with
  | some user1, some user2 =>
    -- 1. Shared interests (40%)
    let interests1_set := interestsSet db user1_id
    let interests2_set := interestsSet db user2_id
    let interest_score : ℝ := overlapScore interests1_set interests2_set 40
    -- 2. Shared values (30%)
    let values1_set := valuesSet user1
    let values2_set := valuesSet user2
    let values_score : ℝ := overlapScore values1_set values2_set 30
    -- 3. Location proximity (15%)
    let location_score : ℝ :=
      match locFind db user1_id, locFind db user2_id with
      | some loc1, some loc2 =>
        let distance_km :=
          haversine_distance loc1.latitude loc1.longitude loc2.latitude loc2.longitude
        max 0 ((1 - min distance_km 30 / 30) * 15)
      | _, _ => 0
    -- 4. Lifestyle match (10%)
    let lifestyle_score : ℝ :=
      match lifeFind db user1_id, lifeFind db user2_id with
      | some l1, some l2 =>
        let matched := lifestyleMatchCount l1 l2
        let checks : ℕ := 4
        if 0 < checks then ((matched : ℝ) / checks) * 10 else 0
      | _, _ => 0
    -- 5. Life goals alignment (5%)
    let goals_score : ℝ :=
      match goalsFind db user1_id, goalsFind db user2_id with
      | some g1, some g2 =>
        let matched := goalsMatchCount g1 g2
        let checks : ℕ := 3
        if 0 < checks then ((matched : ℝ) / checks) * 5 else 0
      | _, _ => 0
    let total_score := interest_score + values_score + location_score + lifestyle_score + goals_score
    (total_score, total_score)
  | _, _ => (0.0, 0.0)

/-!
Spec-side definitions.  The five factor formulas below are written from the
spec's wording (§4.2/§4.3) so that the code-side scorer can be proved to
refine them.
-/

/-- Set-overlap score as worded in the spec: if either set is empty the score
is 0, otherwise `(|A ∩ B| / max(|A|, |B|)) * W`. -/
noncomputable def specOverlapScore {α : Type} [DecidableEq α] (A B : Finset α) (W : ℝ) : ℝ :=
  if A = ∅ ∨ B = ∅ then 0
  else (((A ∩ B).card : ℝ) / (max A.card B.card : ℕ)) * W

/-- Interest-overlap factor (weight 40) as worded in the spec. -/
noncomputable def specInterestFactor (db : DB) (u1 u2 : String) : ℝ :=
  specOverlapScore (interestsSet db u1) (interestsSet db u2) 40

/-- Values-overlap factor (weight 30) as worded in the spec. -/
noncomputable def specValuesFactor (db : DB) (u1 u2 : String) : ℝ :=
  specOverlapScore (valuesSetOf db u1) (valuesSetOf db u2) 30

/-- Location-proximity factor (weight 15) as worded in the spec:
`max(0, (1 - min(distance_km, 30) / 30) * 15)` when both users have a
recorded coordinate, 0 otherwise. -/
noncomputable def specLocationFactor (db : DB) (u1 u2 : String) : ℝ :=
  match locFind db u1, locFind db u2 with
  | some loc1, some loc2 =>
    let distance_km :=
      haversine_distance loc1.latitude loc1.longitude loc2.latitude loc2.longitude
    max 0 ((1 - min distance_km 30 / 30) * 15)
  | _, _ => 0

/-- Lifestyle field-equality factor (weight 10) as worded in the spec:
`(matches / fields_checked) * 10` over the four named fields (all four are
checked, rows carrying every column), 0 if either record is absent. -/
noncomputable def specLifestyleFactor (db : DB) (u1 u2 : String) : ℝ :=
  match lifeFind db u1, lifeFind db u2 with
  | some l1, some l2 => ((lifestyleMatchCount l1 l2 : ℝ) / 4) * 10
  | _, _ => 0

/-- Goals field-equality factor (weight 5) as worded in the spec:
`(matches / fields_checked) * 5` over the three named fields, 0 if either
record is absent. -/
noncomputable def specGoalsFactor (db : DB) (u1 u2 : String) : ℝ :=
  match goalsFind db u1, goalsFind db u2 with
  | some g1, some g2 => ((goalsMatchCount g1 g2 : ℝ) / 3) * 5
  | _, _ => 0

/-- Sum of the five spec-side factor scores. -/
noncomputable def specFactorSum (db : DB) (u1 u2 : String) : ℝ :=
  specInterestFactor db u1 u2 + specValuesFactor db u1 u2 + specLocationFactor db u1 u2 +
    specLifestyleFactor db u1 u2 + specGoalsFactor db u1 u2

/-- IDs the viewer has blocked (non-deleted block rows). -/
def blockedIdsOf (db : DB) (uid : String) : List String :=
  (db.user_blocks.filter (fun b => b.blocker_id = uid ∧ b.deleted_at = none)).map
    (fun b => b.blocked_id)

/-- IDs the viewer currently shares a non-deleted match with, regardless of
which side of the match the viewer is on. -/
def matchedPartnerIds (db : DB) (uid : String) : List String :=
  ((db.match_rows.filter (fun m => (m.user1 = uid ∨ m.user2 = uid) ∧ m.deleted_at = none)).flatMap
    (fun m => [m.user1, m.user2])).filter (fun v => v ≠ uid)

/-- IDs the viewer has reported (non-deleted report rows). -/
def reportedIdsOf (db : DB) (uid : String) : List String :=
  (db.abuse_reports.filter (fun r => r.reporter_id = uid ∧ r.deleted_at = none)).map
    (fun r => r.reported_id)

/-- Exclusion set of a viewer, as worded in the claim and spec §4.4: the
viewer's own ID, blocked IDs, matched-partner IDs (either side), and
reported IDs. -/
def exclusionIds (db : DB) (uid : String) : List String :=
  uid :: (blockedIdsOf db uid ++ matchedPartnerIds db uid ++ reportedIdsOf db uid)

/-!
HTTP surfaces.  Handlers are modeled as functions from the snapshot and the
(validated) query parameters to `Except HttpError resp`; `HTTPException`
becomes the `error` constructor.
-/

/-- An `HTTPException(status_code, detail)`. -/
structure HttpError where
  status : ℕ
  detail : String
deriving DecidableEq

/-- Python `round(x, 2)` (modeled with mathematical rounding; no claim
depends on the tie-breaking convention). -/
noncomputable def round2 (x : ℝ) : ℝ :=
  ((round (x * 100) : ℤ) : ℝ) / 100

/-- Stable insertion of `x` into a descending-by-`key` list: `x` goes after
every element whose key is strictly greater, and also after no element whose
key is equal (so earlier-enumerated elements stay first, as with Python's
stable `list.sort(..., reverse=True)`). -/
noncomputable def insertDescBy {α : Type} (key : α → ℝ) (x : α) : List α → List α
  | [] => [x]
  | y :: l => if key y ≤ key x then x :: y :: l else y :: insertDescBy key x l

/-- Stable descending sort by a real-valued key, modeling
`list.sort(key=..., reverse=True)`. -/
noncomputable def sortDescBy {α : Type} (key : α → ℝ) (l : List α) : List α :=
  l.foldr (insertDescBy key) []

/-- Python truthiness of the nullable `age` column: `None` and `0` are falsy. -/
def ageTruthy : Option Int → Bool
  | some a => a != 0
  | none => false

/-- Age-filter step of the recommendation candidate loop:
`if user_data.get("age"): ... if not (min_age <= age <= max_age): continue`. -/
def agePasses (min_age max_age : Int) (age : Option Int) : Bool :=
  if ageTruthy age then decide (min_age ≤ age.getD 0 ∧ age.getD 0 ≤ max_age) else true

/-- Distance-filter step of the recommendation candidate loop:
`if user_data.get("latitude") and user_data.get("longitude"): ...
if distance_km > max_distance: continue`.  The candidate's coordinates come
from the joined `user_locations` columns (`None` when no row, hence falsy;
note a coordinate equal to `0.0` is also falsy in Python). -/
noncomputable def distPasses (db : DB) (user_loc : LocationRow) (max_distance : ℝ)
    (cid : String) : Bool :=
  match locFind db cid with
  | some cl =>
    if cl.latitude ≠ 0 ∧ cl.longitude ≠ 0 then
      decide (haversine_distance user_loc.latitude user_loc.longitude
        cl.latitude cl.longitude ≤ max_distance)
    else true
  | none => true

/-- Entry of the recommendations-endpoint result page. -/
structure RecEntry where
  id : String
  age : Option Int
  gender : Option String
  compatibility_score : ℝ
  match_percentage : ℝ

/-- Body returned by the recommendations endpoint. -/
structure RecResp where
  data : List RecEntry
  total : ℕ
  limit : ℕ
  offset : ℕ

/-- Verified, non-deleted users — the candidate-pool query shared by the
recommendation paths (`.eq("is_verified", True).is_("deleted_at", None)`). -/
def verifiedActiveUsers (db : DB) : List UserRow :=
  db.users.filter (fun u => u.is_verified ∧ u.deleted_at = none)

/-- Exclusion list built by the recommendations endpoint
(`app/routers/recommendations.py` lines 41–55): blocked, matched (the
other side of each non-deleted match row touching the viewer), reported,
and the viewer itself. -/
def recRouterExcluded (db : DB) (user_id : String) : List String :=
  ((db.user_blocks.filter
    (fun b => b.blocker_id = user_id ∧ b.deleted_at = none)).map (fun b => b.blocked_id)) ++
  ((db.match_rows.filter
    (fun m => (m.user1 = user_id ∨ m.user2 = user_id) ∧ m.deleted_at = none)).map
      (fun m => if m.user1 ≠ user_id then m.user1 else m.user2)) ++
  ((db.abuse_reports.filter
    (fun r => r.reporter_id = user_id ∧ r.deleted_at = none)).map (fun r => r.reported_id)) ++
  [user_id]

/-- Candidate loop of the recommendations endpoint
(`app/routers/recommendations.py` lines 57–81): drop excluded IDs, then apply
the saved age filter and the saved distance filter. -/
noncomputable def recRouterCandidates (db : DB) (user_id : String)
    (user_loc : LocationRow) : List UserRow :=
  let filters := filtFind db user_id
  let min_age := match filters with | some f => f.min_age | none => 18
  let max_age := match filters with | some f => f.max_age | none => 50
  let max_distance := match filters with | some f => f.max_distance_km | none => 30
  (verifiedActiveUsers db).filter (fun c =>
    !decide (c.id ∈ recRouterExcluded db user_id) &&
    agePasses min_age max_age c.age &&
    distPasses db user_loc max_distance c.id)

/-- Scoring loop of the recommendations endpoint
(`app/routers/recommendations.py` lines 83–94). -/
noncomputable def recRouterEntries (db : DB) (user_id : String)
    (user_loc : LocationRow) : List RecEntry :=
  (recRouterCandidates db user_id user_loc).map (fun c =>
    let sp := calculate_compatibility_score db user_id c.id
    RecEntry.mk c.id c.age c.gender (round2 sp.1) (round2 sp.2))

/-- `GET /recommendations` (`get_user_recommendations` in
`app/routers/recommendations.py`).  The fire-and-forget analytics task has no
effect on the response and is not modeled. -/
noncomputable def get_user_recommendations (db : DB) (user_id : String)
    (limit offset : ℕ) : Except HttpError RecResp :=
  match locFind db user_id with
  | none => .error ⟨400, "Location not set. Please update your location first."⟩
  | some user_loc =>
    let sorted := sortDescBy (fun e => e.compatibility_score)
      (recRouterEntries db user_id user_loc)
    let total_count := sorted.length
    let paginated := (sorted.drop offset).take limit
    .ok ⟨paginated, total_count, limit, offset⟩

/-- Entry of the discovery-endpoint result page (as built at
`app/routers/discovery.py` lines 47–57 and 72–74). -/
structure DiscEntry where
  id : String
  email : String
  traits : List String
  tag_values : List String
  green_flags : List String
  red_flags : List String
  lifestyle_tags : List String
  distance_km : ℝ
  created_at : String
  match_percentage : ℝ

/-- Body returned by the discovery endpoint. -/
structure DiscResp where
  data : List DiscEntry
  total : ℕ
  limit : ℕ
  offset : ℕ

/-- `GET /discovery` (`get_discovery` in `app/routers/discovery.py`).

After the viewer-location precondition check (lines 24–26, HTTP 400 when the
viewer has no `user_locations` row), the handler can never reach its `return`:
line 62 binds `matched_ids` to the query-response object (the same kind of
object whose rows every other call site reads through `.data`, e.g. line 59
and line 64 itself), line 63 calls `matched_ids.extend(...)` on that object,
and line 64 reads `matched_ids.data` from it.  No value supports both line 63
and line 64 under the client interface the file itself uses — a response
object carrying the row list in `.data` has no `extend` (an `AttributeError`),
and a plain row list has no `.data` — so one of the two lines raises, the
generic `except Exception` handler turns it into `HTTPException(500, str(e))`,
and every request that passes the location check gets a 500.  The query
parameters (including `min_age`, `max_age` and `sort_by`) are bound but can
never influence a successful response. -/
def get_discovery (db : DB) (user_id : String) (distance_km : ℤ)
    (limit offset : ℕ) (min_age max_age : ℤ) (sort_by : String) :
    Except HttpError DiscResp :=
  match locFind db user_id with
  | none => .error ⟨400, "User location not set"⟩
  | some _user_loc =>
    .error ⟨500, "AttributeError: 'APIResponse' object has no attribute 'extend'"⟩

/-- Output entry of the service-level `get_recommendations`
(`app/services/matching.py` lines 186–190). -/
structure RecOut where
  id : String
  score : ℝ
  match_percentage : ℝ

/-- Exclusion list built by the service-level `get_recommendations`
(`app/services/matching.py` lines 155–166).  The matched-partner
comprehension (line 161) keeps only rows where *both* sides differ from
`user_id`, while its query (lines 158–160) returns only rows where one side
equals `user_id` — so the matched contribution is always empty.  Python's
`m["user1"] or m["user2"]` picks `user1` when it is a non-empty string. -/
def svcExcluded (db : DB) (user_id : String) : List String :=
  ((db.user_blocks.filter
    (fun b => b.blocker_id = user_id ∧ b.deleted_at = none)).map (fun b => b.blocked_id)) ++
  (((db.match_rows.filter
    (fun m => (m.user1 = user_id ∨ m.user2 = user_id) ∧ m.deleted_at = none)).filter
      (fun m => m.user1 ≠ user_id ∧ m.user2 ≠ user_id)).map
        (fun m => if m.user1 ≠ "" then m.user1 else m.user2)) ++
  ((db.abuse_reports.filter
    (fun r => r.reporter_id = user_id ∧ r.deleted_at = none)).map (fun r => r.reported_id)) ++
  [user_id]

/-- Candidate loop of the service-level `get_recommendations`
(`app/services/matching.py` lines 168–180): skip excluded IDs; when a saved
filters row exists, apply its age band to candidates with a truthy age. -/
def svcCandidates (db : DB) (user_id : String) : List UserRow :=
  (verifiedActiveUsers db).filter (fun c =>
    !decide (c.id ∈ svcExcluded db user_id) &&
    (match filtFind db user_id with
     | some f => agePasses f.min_age f.max_age c.age
     | none => true))

/-- Scoring loop of the service-level `get_recommendations`
(`app/services/matching.py` lines 182–190). -/
noncomputable def svcRecOuts (db : DB) (user_id : String) : List RecOut :=
  (svcCandidates db user_id).map (fun c =>
    let sp := calculate_compatibility_score db user_id c.id
    RecOut.mk c.id sp.1 sp.2)

/-- `get_recommendations(user_id, limit, offset)` from
`app/services/matching.py` (lines 135–202): score the surviving candidates,
sort by score descending, slice `[offset : offset + limit]`; a missing viewer
profile row yields `[]`. -/
noncomputable def get_recommendations (db : DB) (user_id : String)
    (limit offset : ℕ) : List RecOut :=
  match userFind db user_id with
  | none => []
  | some _user =>
    let sorted := sortDescBy (fun r => r.score) (svcRecOuts db user_id)
    (sorted.drop offset).take limit

/-- IDs appearing on a recommendations-endpoint result page (none when the
request errored). -/
def recPageIds : Except HttpError RecResp → List String
  | .ok r => r.data.map (fun e => e.id)
  | .error _ => []

/-- IDs appearing on a discovery-endpoint result page (none when the request
errored). -/
def discPageIds : Except HttpError DiscResp → List String
  | .ok r => r.data.map (fun e => e.id)
  | .error _ => []

/-- IDs appearing in a service-level recommendation result. -/
def recOutIds (l : List RecOut) : List String :=
  l.map (fun r => r.id)

/-- HTTP status of an errored response (`none` when the request succeeded). -/
def errorStatus {α : Type} : Except HttpError α → Option ℕ
  | .ok _ => none
  | .error e => some e.status

/-!
Basic lemmas about the scorer's building blocks.
-/

/-- The inlined overlap scorer equals the spec's wording of it: the inner
`total > 0` guard is redundant once both sets are nonempty. -/
theorem overlapScore_eq_spec {α : Type} [DecidableEq α] (A B : Finset α) (W : ℝ) :
    overlapScore A B W = specOverlapScore A B W := by
  unfold overlapScore specOverlapScore
  by_cases hA : A = ∅
  · simp [hA]
  · by_cases hB : B = ∅
    · simp [hB]
    · have hA' : A.Nonempty := Finset.nonempty_iff_ne_empty.mpr hA
      have hB' : B.Nonempty := Finset.nonempty_iff_ne_empty.mpr hB
      have hmax : 0 < max A.card B.card :=
        lt_of_lt_of_le (Finset.card_pos.mpr hA') (le_max_left _ _)
      simp [hA, hB, hA', hB', hmax]

/-- The overlap scorer is symmetric in its two sets. -/
theorem overlapScore_comm {α : Type} [DecidableEq α] (A B : Finset α) (W : ℝ) :
    overlapScore A B W = overlapScore B A W := by
  unfold overlapScore
  rw [Finset.inter_comm, max_comm]
  exact if_congr and_comm rfl rfl

/-- The haversine distance is symmetric in its two coordinates. -/
theorem haversine_distance_symm (lat1 lon1 lat2 lon2 : ℝ) :
    haversine_distance lat1 lon1 lat2 lon2 = haversine_distance lat2 lon2 lat1 lon1 := by
  unfold haversine_distance radians
  have hsin : ∀ x : ℝ, Real.sin ((lat1 - lat2) * (Real.pi / 180) / 2) ^ 2 =
      Real.sin ((lat2 - lat1) * (Real.pi / 180) / 2) ^ 2 := by
    intro _
    have : (lat1 - lat2) * (Real.pi / 180) / 2 = -((lat2 - lat1) * (Real.pi / 180) / 2) := by
      ring
    rw [this, Real.sin_neg, neg_sq]
  have hsin' : Real.sin ((lon1 - lon2) * (Real.pi / 180) / 2) ^ 2 =
      Real.sin ((lon2 - lon1) * (Real.pi / 180) / 2) ^ 2 := by
    have : (lon1 - lon2) * (Real.pi / 180) / 2 = -((lon2 - lon1) * (Real.pi / 180) / 2) := by
      ring
    rw [this, Real.sin_neg, neg_sq]
  simp only [hsin 0, hsin']
  ring_nf

/-- The haversine distance from a point to itself is zero. -/
theorem haversine_distance_self (lat lon : ℝ) :
    haversine_distance lat lon lat lon = 0 := by
  unfold haversine_distance radians atan2
  simp

/-- Decomposition of the scorer: when both profile rows exist, the score is
exactly the sum of the five factor scores, and both returned components equal
that sum. -/
theorem calculate_eq_specFactorSum (db : DB) (u1 u2 : String)
    (h1 : (userFind db u1).isSome) (h2 : (userFind db u2).isSome) :
    calculate_compatibility_score db u1 u2 =
      (specFactorSum db u1 u2, specFactorSum db u1 u2) := by
  obtain ⟨r1, e1⟩ := Option.isSome_iff_exists.mp h1
  obtain ⟨r2, e2⟩ := Option.isSome_iff_exists.mp h2
  unfold calculate_compatibility_score specFactorSum specInterestFactor specValuesFactor
    specLocationFactor specLifestyleFactor specGoalsFactor valuesSetOf
  rw [e1, e2]
  simp only [overlapScore_eq_spec]
  norm_num

/-- Membership in a stable descending insertion. -/
theorem mem_insertDescBy {α : Type} (key : α → ℝ) (x a : α) (l : List α) :
    a ∈ insertDescBy key x l ↔ a = x ∨ a ∈ l := by
  induction l with
  | nil => simp [insertDescBy]
  | cons y t ih =>
    unfold insertDescBy
    by_cases h : key y ≤ key x
    · simp [h]
    · simp [h, ih]
      tauto

/-- Sorting is a permutation at the level of membership. -/
theorem mem_sortDescBy {α : Type} (key : α → ℝ) (a : α) (l : List α) :
    a ∈ sortDescBy key l ↔ a ∈ l := by
  induction l with
  | nil => simp [sortDescBy]
  | cons y t ih =>
    unfold sortDescBy at *
    simp [List.foldr_cons, mem_insertDescBy, ih]

/-- The interest/values factor is zero as soon as either set is empty. -/
theorem specOverlapScore_zero_of_empty {α : Type} [DecidableEq α] (A B : Finset α) (W : ℝ)
    (h : A = ∅ ∨ B = ∅) : specOverlapScore A B W = 0 := by
  unfold specOverlapScore
  rw [if_pos h]

/-- The overlap factor of a nonempty set with itself is the full weight. -/
theorem specOverlapScore_self {α : Type} [DecidableEq α] (A : Finset α) (W : ℝ)
    (h : A.Nonempty) : specOverlapScore A A W = W := by
  unfold specOverlapScore
  rw [if_neg (by simp [h.ne_empty])]
  rw [Finset.inter_self, max_self]
  have hc : (A.card : ℝ) ≠ 0 := Nat.cast_ne_zero.mpr (Finset.card_ne_zero.mpr h)
  rw [div_self hc, one_mul]

/-- The location factor is zero when either location row is absent. -/
theorem specLocationFactor_zero_of_absent (db : DB) (u1 u2 : String)
    (h : locFind db u1 = none ∨ locFind db u2 = none) :
    specLocationFactor db u1 u2 = 0 := by
  unfold specLocationFactor
  rcases h with h | h
  · rw [h]
  · rw [h]
    rcases locFind db u1 with _ | l1 <;> rfl

/-- The location factor at coincident recorded coordinates is the full 15. -/
theorem specLocationFactor_of_coincident (db : DB) (u1 u2 : String)
    (l1 l2 : LocationRow) (h1 : locFind db u1 = some l1) (h2 : locFind db u2 = some l2)
    (hlat : l1.latitude = l2.latitude) (hlon : l1.longitude = l2.longitude) :
    specLocationFactor db u1 u2 = 15 := by
  unfold specLocationFactor
  rw [h1, h2]
  simp only [hlat, hlon, haversine_distance_self]
  norm_num

/-- The lifestyle factor is zero when either lifestyle row is absent. -/
theorem specLifestyleFactor_zero_of_absent (db : DB) (u1 u2 : String)
    (h : lifeFind db u1 = none ∨ lifeFind db u2 = none) :
    specLifestyleFactor db u1 u2 = 0 := by
  unfold specLifestyleFactor
  rcases h with h | h
  · rw [h]
  · rw [h]
    rcases lifeFind db u1 with _ | l1 <;> rfl

/-- The goals factor is zero when either goals row is absent. -/
theorem specGoalsFactor_zero_of_absent (db : DB) (u1 u2 : String)
    (h : goalsFind db u1 = none ∨ goalsFind db u2 = none) :
    specGoalsFactor db u1 u2 = 0 := by
  unfold specGoalsFactor
  rcases h with h | h
  · rw [h]
  · rw [h]
    rcases goalsFind db u1 with _ | g1 <;> rfl

/-- Agreement of the four compared lifestyle fields. -/
def lifestyleSame (r1 r2 : LifestyleRow) : Prop :=
  r1.smoking = r2.smoking ∧ r1.drinking = r2.drinking ∧
    r1.diet = r2.diet ∧ r1.social_lifestyle = r2.social_lifestyle

/-- Agreement of the three compared goals fields. -/
def goalsSame (r1 r2 : GoalsRow) : Prop :=
  r1.wants_kids = r2.wants_kids ∧ r1.marriage_timeline = r2.marriage_timeline ∧
    r1.relationship_type = r2.relationship_type

/-- The lifestyle factor for two present, field-identical rows is the full 10. -/
theorem specLifestyleFactor_of_same (db : DB) (u1 u2 : String)
    (l1 l2 : LifestyleRow) (h1 : lifeFind db u1 = some l1) (h2 : lifeFind db u2 = some l2)
    (hs : lifestyleSame l1 l2) : specLifestyleFactor db u1 u2 = 10 := by
  unfold specLifestyleFactor
  rw [h1, h2]
  obtain ⟨a, b, c, d⟩ := hs
  simp only [lifestyleMatchCount, a, b, c, d, if_pos rfl]
  norm_num

/-- The goals factor for two present, field-identical rows is the full 5. -/
theorem specGoalsFactor_of_same (db : DB) (u1 u2 : String)
    (g1 g2 : GoalsRow) (h1 : goalsFind db u1 = some g1) (h2 : goalsFind db u2 = some g2)
    (hs : goalsSame g1 g2) : specGoalsFactor db u1 u2 = 5 := by
  unfold specGoalsFactor
  rw [h1, h2]
  obtain ⟨a, b, c⟩ := hs
  simp only [goalsMatchCount, a, b, c, if_pos rfl]
  norm_num

/-- The spec overlap scorer is symmetric. -/
theorem specOverlapScore_comm {α : Type} [DecidableEq α] (A B : Finset α) (W : ℝ) :
    specOverlapScore A B W = specOverlapScore B A W := by
  rw [← overlapScore_eq_spec, ← overlapScore_eq_spec, overlapScore_comm]

/-- The interest factor is symmetric. -/
theorem specInterestFactor_comm (db : DB) (u1 u2 : String) :
    specInterestFactor db u1 u2 = specInterestFactor db u2 u1 := by
  unfold specInterestFactor
  exact specOverlapScore_comm _ _ _

/-- The values factor is symmetric. -/
theorem specValuesFactor_comm (db : DB) (u1 u2 : String) :
    specValuesFactor db u1 u2 = specValuesFactor db u2 u1 := by
  unfold specValuesFactor
  exact specOverlapScore_comm _ _ _

/-- The location factor is symmetric, by symmetry of the haversine distance. -/
theorem specLocationFactor_comm (db : DB) (u1 u2 : String) :
    specLocationFactor db u1 u2 = specLocationFactor db u2 u1 := by
  unfold specLocationFactor
  rcases locFind db u1 with _ | l1 <;> rcases locFind db u2 with _ | l2 <;> try rfl
  simp only [haversine_distance_symm l1.latitude l1.longitude l2.latitude l2.longitude]

/-- Indicator of an equality test is insensitive to the order of its sides. -/
theorem iteEqFlip {α : Type} [DecidableEq α] (a b : α) :
    (if a = b then (1 : ℕ) else 0) = (if b = a then 1 else 0) :=
  if_congr eq_comm rfl rfl

/-- The lifestyle match count is symmetric. -/
theorem lifestyleMatchCount_comm (r1 r2 : LifestyleRow) :
    lifestyleMatchCount r1 r2 = lifestyleMatchCount r2 r1 := by
  unfold lifestyleMatchCount
  rw [iteEqFlip r1.smoking r2.smoking, iteEqFlip r1.drinking r2.drinking,
    iteEqFlip r1.diet r2.diet, iteEqFlip r1.social_lifestyle r2.social_lifestyle]

/-- The goals match count is symmetric. -/
theorem goalsMatchCount_comm (r1 r2 : GoalsRow) :
    goalsMatchCount r1 r2 = goalsMatchCount r2 r1 := by
  unfold goalsMatchCount
  rw [iteEqFlip r1.wants_kids r2.wants_kids, iteEqFlip r1.marriage_timeline r2.marriage_timeline,
    iteEqFlip r1.relationship_type r2.relationship_type]

/-- The lifestyle factor is symmetric. -/
theorem specLifestyleFactor_comm (db : DB) (u1 u2 : String) :
    specLifestyleFactor db u1 u2 = specLifestyleFactor db u2 u1 := by
  unfold specLifestyleFactor
  rcases lifeFind db u1 with _ | l1 <;> rcases lifeFind db u2 with _ | l2 <;> try rfl
  simp only [lifestyleMatchCount_comm l1 l2]

/-- The goals factor is symmetric. -/
theorem specGoalsFactor_comm (db : DB) (u1 u2 : String) :
    specGoalsFactor db u1 u2 = specGoalsFactor db u2 u1 := by
  unfold specGoalsFactor
  rcases goalsFind db u1 with _ | g1 <;> rcases goalsFind db u2 with _ | g2 <;> try rfl
  simp only [goalsMatchCount_comm g1 g2]

/-- The factor sum is symmetric in the two users. -/
theorem specFactorSum_comm (db : DB) (u1 u2 : String) :
    specFactorSum db u1 u2 = specFactorSum db u2 u1 := by
  unfold specFactorSum
  rw [specInterestFactor_comm, specValuesFactor_comm, specLocationFactor_comm,
    specLifestyleFactor_comm, specGoalsFactor_comm]

/-- Everything in the claim-side exclusion set is in the exclusion list the
recommendations endpoint actually builds. -/
theorem exclusionIds_subset_recRouterExcluded (db : DB) (uid i : String)
    (h : i ∈ exclusionIds db uid) : i ∈ recRouterExcluded db uid := by
  unfold exclusionIds blockedIdsOf matchedPartnerIds reportedIdsOf at h
  unfold recRouterExcluded
  simp only [List.mem_cons, List.mem_append, List.mem_map, List.mem_filter,
    List.mem_flatMap, List.not_mem_nil, or_false, decide_eq_true_eq] at h ⊢
  rcases h with rfl | (hb | hm) | hr
  · exact Or.inr rfl
  · obtain ⟨b, hb1, hb2⟩ := hb
    exact Or.inl (Or.inl (Or.inl ⟨b, hb1, hb2⟩))
  · obtain ⟨⟨m, hm1, hmem⟩, hne⟩ := hm
    refine Or.inl (Or.inl (Or.inr ⟨m, hm1, ?_⟩))
    have hside : m.user1 = uid ∨ m.user2 = uid := hm1.2.1
    by_cases h1 : m.user1 = uid
    · rw [if_neg (by simp [h1])]
      rcases hmem with rfl | rfl
      · exact absurd h1 hne
      · rfl
    · rw [if_pos h1]
      rcases hmem with rfl | rfl
      · rfl
      · rcases hside with hs | hs
        · exact absurd hs h1
        · exact absurd hs hne
  · obtain ⟨r, hr1, hr2⟩ := hr
    exact Or.inl (Or.inr ⟨r, hr1, hr2⟩)

/-- Shape of a successful recommendations response. -/
theorem get_user_recommendations_ok (db : DB) (uid : String) (uloc : LocationRow)
    (limit offset : ℕ) (hloc : locFind db uid = some uloc) :
    get_user_recommendations db uid limit offset =
      .ok ⟨(((sortDescBy (fun e => e.compatibility_score)
              (recRouterEntries db uid uloc)).drop offset).take limit),
           (sortDescBy (fun e => e.compatibility_score)
              (recRouterEntries db uid uloc)).length, limit, offset⟩ := by
  unfold get_user_recommendations
  rw [hloc]

/-- No ID on a recommendations-endpoint page is in the claim-side exclusion
set: the page comes from candidates filtered against the endpoint's exclusion
list, which contains the whole claim-side set. -/
theorem recRouterPage_not_excluded (db : DB) (uid : String) (limit offset : ℕ)
    (i : String) (h : i ∈ recPageIds (get_user_recommendations db uid limit offset)) :
    i ∉ exclusionIds db uid := by
  intro hex
  rcases hloc : locFind db uid with _ | uloc
  · unfold get_user_recommendations at h
    rw [hloc] at h
    simp [recPageIds] at h
  · rw [get_user_recommendations_ok db uid uloc limit offset hloc] at h
    simp only [recPageIds] at h
    rw [List.mem_map] at h
    obtain ⟨e, he, hid⟩ := h
    have he2 : e ∈ sortDescBy (fun e => e.compatibility_score) (recRouterEntries db uid uloc) :=
      List.drop_subset _ _ (List.take_subset _ _ he)
    rw [mem_sortDescBy] at he2
    unfold recRouterEntries at he2
    rw [List.mem_map] at he2
    obtain ⟨c, hc, hce⟩ := he2
    unfold recRouterCandidates at hc
    simp only [List.mem_filter, Bool.and_eq_true, Bool.not_eq_true',
      decide_eq_false_iff_not] at hc
    apply hc.2.1.1
    have hci : c.id = i := by rw [← hid, ← hce]
    rw [hci]
    exact exclusionIds_subset_recRouterExcluded db uid i hex

/-- The discovery endpoint never returns a page at all, so no ID ever appears
on one. -/
theorem discPage_not_excluded (db : DB) (uid : String) (dk : ℤ) (limit offset : ℕ)
    (minA maxA : ℤ) (sb : String) (i : String)
    (h : i ∈ discPageIds (get_discovery db uid dk limit offset minA maxA sb)) :
    i ∉ exclusionIds db uid := by
  exfalso
  unfold get_discovery at h
  rcases hl : locFind db uid with _ | uloc <;> rw [hl] at h <;> simp [discPageIds] at h

/-- IDs returned by the service-level `get_recommendations` avoid the self,
blocked and reported parts of the exclusion set (but not the matched part,
whose filter in the source is vacuous). -/
theorem svcPage_not_self_blocked_reported (db : DB) (uid : String) (limit offset : ℕ)
    (i : String) (h : i ∈ recOutIds (get_recommendations db uid limit offset)) :
    i ≠ uid ∧ i ∉ blockedIdsOf db uid ∧ i ∉ reportedIdsOf db uid := by
  unfold get_recommendations at h
  rcases hu : userFind db uid with _ | u
  · rw [hu] at h
    simp [recOutIds] at h
  · rw [hu] at h
    simp only [recOutIds] at h
    rw [List.mem_map] at h
    obtain ⟨e, he, hid⟩ := h
    have he2 : e ∈ sortDescBy (fun r => r.score) (svcRecOuts db uid) :=
      List.drop_subset _ _ (List.take_subset _ _ he)
    rw [mem_sortDescBy] at he2
    unfold svcRecOuts at he2
    rw [List.mem_map] at he2
    obtain ⟨c, hc, hce⟩ := he2
    unfold svcCandidates at hc
    simp only [List.mem_filter, Bool.and_eq_true, Bool.not_eq_true',
      decide_eq_false_iff_not] at hc
    have hnot : c.id ∉ svcExcluded db uid := hc.2.1
    have hci : c.id = i := by rw [← hid, ← hce]
    rw [hci] at hnot
    unfold svcExcluded at hnot
    simp only [List.mem_append, List.mem_cons, List.not_mem_nil, or_false,
      not_or] at hnot
    exact ⟨hnot.2, hnot.1.1.1, hnot.1.2⟩

/-!
Concrete snapshots used by witnesses and counterexamples.
-/

/-- A verified user row with no optional data. -/
def mkUser (uid : String) : UserRow :=
  { id := uid, email := uid, age := none, gender := none, traits := none,
    user_values := none, green_flags := none, red_flags := none,
    lifestyle_tags := none, is_verified := true, deleted_at := none,
    created_at := "2024-01-01" }

/-- A verified user row carrying one values tag. -/
def mkUserV (uid : String) : UserRow :=
  { mkUser uid with user_values := some ["kindness"] }

/-- A lifestyle row with fixed field contents. -/
def lifeRow (uid : String) : LifestyleRow :=
  ⟨uid, some "never", some "socially", none, none⟩

/-- A goals row with fixed field contents. -/
def goalsRow (uid : String) : GoalsRow :=
  ⟨uid, some "yes", none, some "serious"⟩

/-- Snapshot with one user and no location rows. -/
def dbNoLoc : DB :=
  ⟨[mkUser "alice"], [], [], [], [], [], [], [], []⟩

/-- Snapshot with two bare users and no auxiliary records at all. -/
def dbPair : DB :=
  ⟨[mkUser "alice", mkUser "bob"], [], [], [], [], [], [], [], []⟩

/-- Snapshot where the viewer has a location, has blocked `bob`, and `carol`
is an unremarkable candidate. -/
def dbLocated : DB :=
  ⟨[mkUser "alice", mkUser "bob", mkUser "carol"], [], [⟨"alice", 0, 0⟩], [], [],
    [⟨"alice", "bob", none⟩], [], [], []⟩

/-- Snapshot where the viewer shares a non-deleted match with `mark`. -/
def dbMatched : DB :=
  ⟨[mkUser "alice", mkUser "mark"], [], [], [], [], [],
    [⟨"alice", "mark", none⟩], [], []⟩

/-- Snapshot with two users identical in every scored attribute: one shared
interest, one shared values tag, equal lifestyle and goals fields, and the
same coordinates. -/
def dbIdent : DB :=
  ⟨[mkUserV "alice", mkUserV "bob"],
    [⟨"alice", "hiking"⟩, ⟨"bob", "hiking"⟩],
    [⟨"alice", 10, 20⟩, ⟨"bob", 10, 20⟩],
    [lifeRow "alice", lifeRow "bob"],
    [goalsRow "alice", goalsRow "bob"],
    [], [], [], []⟩

/-- Snapshot with two users whose interest and values sets are identical but
empty, with identical lifestyle/goals rows and coincident coordinates. -/
def dbEmptySets : DB :=
  ⟨[mkUser "alice", mkUser "bob"],
    [],
    [⟨"alice", 0, 0⟩, ⟨"bob", 0, 0⟩],
    [lifeRow "alice", lifeRow "bob"],
    [goalsRow "alice", goalsRow "bob"],
    [], [], [], []⟩

/-!
The claims.
-/

/-- C1: for every pair of users whose profile records exist, the scorer
returns the sum of exactly the five factor scores — interest overlap
(weight 40), values overlap (weight 30), location proximity (weight 15),
lifestyle field-equality (weight 10) and goals field-equality (weight 5),
each as worded in the spec — in both output components. -/
theorem claim_C1_score_is_sum_of_five_factors (db : DB) (u1 u2 : String)
    (h1 : (userFind db u1).isSome) (h2 : (userFind db u2).isSome) :
    calculate_compatibility_score db u1 u2 =
      (specInterestFactor db u1 u2 + specValuesFactor db u1 u2 + specLocationFactor db u1 u2 +
        specLifestyleFactor db u1 u2 + specGoalsFactor db u1 u2,
       specInterestFactor db u1 u2 + specValuesFactor db u1 u2 + specLocationFactor db u1 u2 +
        specLifestyleFactor db u1 u2 + specGoalsFactor db u1 u2) :=
  calculate_eq_specFactorSum db u1 u2 h1 h2

/-- Witness for C1 at a concrete snapshot. -/
theorem claim_C1_score_is_sum_of_five_factors_witness :
    (userFind dbPair "alice").isSome ∧ (userFind dbPair "bob").isSome ∧
    calculate_compatibility_score dbPair "alice" "bob" =
      (specInterestFactor dbPair "alice" "bob" + specValuesFactor dbPair "alice" "bob" +
        specLocationFactor dbPair "alice" "bob" + specLifestyleFactor dbPair "alice" "bob" +
        specGoalsFactor dbPair "alice" "bob",
       specInterestFactor dbPair "alice" "bob" + specValuesFactor dbPair "alice" "bob" +
        specLocationFactor dbPair "alice" "bob" + specLifestyleFactor dbPair "alice" "bob" +
        specGoalsFactor dbPair "alice" "bob") :=
  ⟨by decide, by decide,
    claim_C1_score_is_sum_of_five_factors dbPair "alice" "bob" (by decide) (by decide)⟩

/-- C3: for users whose profile rows exist, absence of an interests, location,
lifestyle or goals record (for either user) is not an error — the model stays
total — and makes exactly that factor contribute 0, the other four factors
entering the total unchanged. -/
theorem claim_C3_absent_record_zeroes_only_its_factor (db : DB) (u1 u2 : String)
    (h1 : (userFind db u1).isSome) (h2 : (userFind db u2).isSome) :
    (interestsSet db u1 = ∅ ∨ interestsSet db u2 = ∅ →
      calculate_compatibility_score db u1 u2 =
        (0 + specValuesFactor db u1 u2 + specLocationFactor db u1 u2 +
          specLifestyleFactor db u1 u2 + specGoalsFactor db u1 u2,
         0 + specValuesFactor db u1 u2 + specLocationFactor db u1 u2 +
          specLifestyleFactor db u1 u2 + specGoalsFactor db u1 u2)) ∧
    (locFind db u1 = none ∨ locFind db u2 = none →
      calculate_compatibility_score db u1 u2 =
        (specInterestFactor db u1 u2 + specValuesFactor db u1 u2 + 0 +
          specLifestyleFactor db u1 u2 + specGoalsFactor db u1 u2,
         specInterestFactor db u1 u2 + specValuesFactor db u1 u2 + 0 +
          specLifestyleFactor db u1 u2 + specGoalsFactor db u1 u2)) ∧
    (lifeFind db u1 = none ∨ lifeFind db u2 = none →
      calculate_compatibility_score db u1 u2 =
        (specInterestFactor db u1 u2 + specValuesFactor db u1 u2 +
          specLocationFactor db u1 u2 + 0 + specGoalsFactor db u1 u2,
         specInterestFactor db u1 u2 + specValuesFactor db u1 u2 +
          specLocationFactor db u1 u2 + 0 + specGoalsFactor db u1 u2)) ∧
    (goalsFind db u1 = none ∨ goalsFind db u2 = none →
      calculate_compatibility_score db u1 u2 =
        (specInterestFactor db u1 u2 + specValuesFactor db u1 u2 +
          specLocationFactor db u1 u2 + specLifestyleFactor db u1 u2 + 0,
         specInterestFactor db u1 u2 + specValuesFactor db u1 u2 +
          specLocationFactor db u1 u2 + specLifestyleFactor db u1 u2 + 0)) := by
  refine ⟨fun h => ?_, fun h => ?_, fun h => ?_, fun h => ?_⟩ <;>
    rw [calculate_eq_specFactorSum db u1 u2 h1 h2] <;> unfold specFactorSum
  · have hz : specInterestFactor db u1 u2 = 0 := by
      unfold specInterestFactor
      exact specOverlapScore_zero_of_empty _ _ _ h
    rw [hz]
  · rw [specLocationFactor_zero_of_absent db u1 u2 h]
  · rw [specLifestyleFactor_zero_of_absent db u1 u2 h]
  · rw [specGoalsFactor_zero_of_absent db u1 u2 h]

/-- Witness for C3: a snapshot with no interest, location, lifestyle or goals
records, where each of the four absence cases applies. -/
theorem claim_C3_absent_record_zeroes_only_its_factor_witness :
    calculate_compatibility_score dbPair "alice" "bob" =
      (0 + specValuesFactor dbPair "alice" "bob" + specLocationFactor dbPair "alice" "bob" +
        specLifestyleFactor dbPair "alice" "bob" + specGoalsFactor dbPair "alice" "bob",
       0 + specValuesFactor dbPair "alice" "bob" + specLocationFactor dbPair "alice" "bob" +
        specLifestyleFactor dbPair "alice" "bob" + specGoalsFactor dbPair "alice" "bob") ∧
    calculate_compatibility_score dbPair "alice" "bob" =
      (specInterestFactor dbPair "alice" "bob" + specValuesFactor dbPair "alice" "bob" + 0 +
        specLifestyleFactor dbPair "alice" "bob" + specGoalsFactor dbPair "alice" "bob",
       specInterestFactor dbPair "alice" "bob" + specValuesFactor dbPair "alice" "bob" + 0 +
        specLifestyleFactor dbPair "alice" "bob" + specGoalsFactor dbPair "alice" "bob") ∧
    calculate_compatibility_score dbPair "alice" "bob" =
      (specInterestFactor dbPair "alice" "bob" + specValuesFactor dbPair "alice" "bob" +
        specLocationFactor dbPair "alice" "bob" + 0 + specGoalsFactor dbPair "alice" "bob",
       specInterestFactor dbPair "alice" "bob" + specValuesFactor dbPair "alice" "bob" +
        specLocationFactor dbPair "alice" "bob" + 0 + specGoalsFactor dbPair "alice" "bob") ∧
    calculate_compatibility_score dbPair "alice" "bob" =
      (specInterestFactor dbPair "alice" "bob" + specValuesFactor dbPair "alice" "bob" +
        specLocationFactor dbPair "alice" "bob" + specLifestyleFactor dbPair "alice" "bob" + 0,
       specInterestFactor dbPair "alice" "bob" + specValuesFactor dbPair "alice" "bob" +
        specLocationFactor dbPair "alice" "bob" + specLifestyleFactor dbPair "alice" "bob" + 0) :=
  ⟨(claim_C3_absent_record_zeroes_only_its_factor dbPair "alice" "bob"
      (by decide) (by decide)).1 (Or.inl (by decide)),
   (claim_C3_absent_record_zeroes_only_its_factor dbPair "alice" "bob"
      (by decide) (by decide)).2.1 (Or.inl rfl),
   (claim_C3_absent_record_zeroes_only_its_factor dbPair "alice" "bob"
      (by decide) (by decide)).2.2.1 (Or.inl rfl),
   (claim_C3_absent_record_zeroes_only_its_factor dbPair "alice" "bob"
      (by decide) (by decide)).2.2.2 (Or.inl rfl)⟩

/-- C4: a discovery request by a viewer with no recorded coordinate fails with
the distinct "location not set" HTTP 400 precondition error — not a generic
500 and not an empty page. -/
theorem claim_C4_discovery_location_precondition (db : DB) (uid : String)
    (dk : ℤ) (limit offset : ℕ) (minA maxA : ℤ) (sb : String)
    (h : locFind db uid = none) :
    get_discovery db uid dk limit offset minA maxA sb =
      .error ⟨400, "User location not set"⟩ := by
  unfold get_discovery
  rw [h]

/-- Witness for C4 at a concrete snapshot with no location rows. -/
theorem claim_C4_discovery_location_precondition_witness :
    locFind dbNoLoc "alice" = none ∧
    get_discovery dbNoLoc "alice" 20 20 0 18 50 "distance" =
      .error ⟨400, "User location not set"⟩ :=
  ⟨rfl, claim_C4_discovery_location_precondition dbNoLoc "alice" 20 20 0 18 50 "distance" rfl⟩

/-- C6: the compatibility score is symmetric — swapping the two user IDs
leaves both returned components unchanged, for every snapshot and every pair
of IDs (also when one or both profile rows are missing). -/
theorem claim_C6_score_symmetric (db : DB) (u1 u2 : String) :
    calculate_compatibility_score db u1 u2 = calculate_compatibility_score db u2 u1 := by
  rcases e1 : userFind db u1 with _ | r1
  · rcases e2 : userFind db u2 with _ | r2
    · unfold calculate_compatibility_score
      rw [e1, e2]
    · unfold calculate_compatibility_score
      rw [e1, e2]
  · rcases e2 : userFind db u2 with _ | r2
    · unfold calculate_compatibility_score
      rw [e1, e2]
    · have h1 : (userFind db u1).isSome := by rw [e1]; rfl
      have h2 : (userFind db u2).isSome := by rw [e2]; rfl
      rw [calculate_eq_specFactorSum db u1 u2 h1 h2,
        calculate_eq_specFactorSum db u2 u1 h2 h1, specFactorSum_comm]

/-- C7: the set-overlap scorer is monotone in shared elements — adding one
element that is in neither set to both sets never decreases the score, for
any non-negative weight. -/
theorem claim_C7_overlap_monotone {α : Type} [DecidableEq α] (A B : Finset α)
    (x : α) (W : ℝ) (hxA : x ∉ A) (hxB : x ∉ B) (hW : 0 ≤ W) :
    overlapScore A B W ≤ overlapScore (insert x A) (insert x B) W := by
  rw [overlapScore_eq_spec, overlapScore_eq_spec]
  unfold specOverlapScore
  have hA' : insert x A ≠ ∅ := Finset.insert_ne_empty x A
  have hB' : insert x B ≠ ∅ := Finset.insert_ne_empty x B
  rw [if_neg ((by simp [hA', hB']) : ¬(insert x A = ∅ ∨ insert x B = ∅))]
  have hIcard : (insert x A ∩ insert x B).card = (A ∩ B).card + 1 := by
    rw [← Finset.insert_inter_distrib]
    exact Finset.card_insert_of_not_mem (fun hx => hxA (Finset.mem_inter.mp hx).1)
  have hMax : max (insert x A).card (insert x B).card = max A.card B.card + 1 := by
    rw [Finset.card_insert_of_not_mem hxA, Finset.card_insert_of_not_mem hxB]
    exact max_add_add_right A.card B.card 1
  by_cases hA : A = ∅
  · rw [if_pos (Or.inl hA)]
    exact mul_nonneg (div_nonneg (Nat.cast_nonneg _) (Nat.cast_nonneg _)) hW
  by_cases hB : B = ∅
  · rw [if_pos (Or.inr hB)]
    exact mul_nonneg (div_nonneg (Nat.cast_nonneg _) (Nat.cast_nonneg _)) hW
  rw [if_neg ((by simp [hA, hB]) : ¬(A = ∅ ∨ B = ∅))]
  rw [hIcard, hMax]
  have hm1 : 1 ≤ max A.card B.card :=
    le_trans (Finset.card_pos.mpr (Finset.nonempty_iff_ne_empty.mpr hA)) (le_max_left _ _)
  have hsm : (A ∩ B).card ≤ max A.card B.card :=
    le_trans (Finset.card_le_card Finset.inter_subset_left) (le_max_left _ _)
  apply mul_le_mul_of_nonneg_right _ hW
  have hmpos : (0 : ℝ) < ((max A.card B.card : ℕ) : ℝ) := by exact_mod_cast hm1
  have hm1pos : (0 : ℝ) < ((max A.card B.card + 1 : ℕ) : ℝ) := by positivity
  rw [div_le_div_iff hmpos hm1pos]
  have key : (A ∩ B).card * (max A.card B.card + 1) ≤
      ((A ∩ B).card + 1) * max A.card B.card := by
    calc (A ∩ B).card * (max A.card B.card + 1)
        = (A ∩ B).card * max A.card B.card + (A ∩ B).card := by ring
      _ ≤ (A ∩ B).card * max A.card B.card + max A.card B.card := Nat.add_le_add_left hsm _
      _ = ((A ∩ B).card + 1) * max A.card B.card := by ring
  exact_mod_cast key

/-- Witness for C7 at concrete sets and weight. -/
theorem claim_C7_overlap_monotone_witness :
    ("c" ∉ ({"a"} : Finset String)) ∧ ("c" ∉ ({"b"} : Finset String)) ∧ ((0 : ℝ) ≤ 40) ∧
    overlapScore ({"a"} : Finset String) {"b"} 40 ≤
      overlapScore (insert "c" {"a"}) (insert "c" {"b"}) 40 :=
  ⟨by decide, by decide, by norm_num,
    claim_C7_overlap_monotone {"a"} {"b"} "c" 40 (by decide) (by decide) (by norm_num)⟩

/-- C8 (the code diverges): once the location precondition passes, the
discovery endpoint returns HTTP 500 — never a page, a total, or the
`min(limit, total - offset)` slice the claim describes — for every
limit/offset/sort/radius combination (`matched_ids.extend(...)` on the query
response at discovery.py line 63 raises, and the generic handler turns it
into a 500). -/
theorem claim_C8_discovery_crashes_instead_of_paginating (dk minA maxA : ℤ)
    (limit offset : ℕ) (sb : String) :
    errorStatus (get_discovery dbLocated "alice" dk limit offset minA maxA sb) = some 500 :=
  rfl

/-- C9: the discovery endpoint's `min_age`/`max_age` query parameters have no
effect whatsoever — two requests differing only in those values produce
identical responses over any snapshot. -/
theorem claim_C9_discovery_age_params_no_effect (db : DB) (uid : String)
    (dk : ℤ) (limit offset : ℕ) (minA1 maxA1 minA2 maxA2 : ℤ) (sb : String) :
    get_discovery db uid dk limit offset minA1 maxA1 sb =
      get_discovery db uid dk limit offset minA2 maxA2 sb :=
  rfl

/-- C10: a recommendations request by a viewer with no location record fails
with the "Location not set" HTTP 400 error, independently of every other
table — i.e. before any candidate is considered. -/
theorem claim_C10_recommendations_location_precondition (db : DB) (uid : String)
    (limit offset : ℕ) (h : locFind db uid = none) :
    get_user_recommendations db uid limit offset =
      .error ⟨400, "Location not set. Please update your location first."⟩ := by
  unfold get_user_recommendations
  rw [h]

/-- Witness for C10 at a concrete snapshot with no location rows. -/
theorem claim_C10_recommendations_location_precondition_witness :
    locFind dbNoLoc "alice" = none ∧
    get_user_recommendations dbNoLoc "alice" 20 0 =
      .error ⟨400, "Location not set. Please update your location first."⟩ :=
  ⟨rfl, claim_C10_recommendations_location_precondition dbNoLoc "alice" 20 0 rfl⟩

/-- C5 (amended): two existing users with identical *nonempty* interest sets,
identical *nonempty* values sets, present field-identical lifestyle records,
present field-identical goals records and coincident recorded coordinates
score exactly `(100, 100)`.  (Without the nonemptiness of the two sets the
original claim fails: the overlap rule scores an empty set as 0, not as a
full match — see the counterexample.) -/
theorem claim_C5_amended_identical_profiles_score_100 (db : DB) (u1 u2 : String)
    (h1 : (userFind db u1).isSome) (h2 : (userFind db u2).isSome)
    (hi : interestsSet db u1 = interestsSet db u2) (hine : (interestsSet db u1).Nonempty)
    (hv : valuesSetOf db u1 = valuesSetOf db u2) (hvne : (valuesSetOf db u1).Nonempty)
    (l1 l2 : LocationRow) (hl1 : locFind db u1 = some l1) (hl2 : locFind db u2 = some l2)
    (hlat : l1.latitude = l2.latitude) (hlon : l1.longitude = l2.longitude)
    (f1 f2 : LifestyleRow) (hf1 : lifeFind db u1 = some f1) (hf2 : lifeFind db u2 = some f2)
    (hfs : lifestyleSame f1 f2)
    (g1 g2 : GoalsRow) (hg1 : goalsFind db u1 = some g1) (hg2 : goalsFind db u2 = some g2)
    (hgs : goalsSame g1 g2) :
    calculate_compatibility_score db u1 u2 = (100, 100) := by
  rw [calculate_eq_specFactorSum db u1 u2 h1 h2]
  unfold specFactorSum
  have e1 : specInterestFactor db u1 u2 = 40 := by
    unfold specInterestFactor
    rw [← hi]
    exact specOverlapScore_self _ _ hine
  have e2 : specValuesFactor db u1 u2 = 30 := by
    unfold specValuesFactor
    rw [← hv]
    exact specOverlapScore_self _ _ hvne
  rw [e1, e2, specLocationFactor_of_coincident db u1 u2 l1 l2 hl1 hl2 hlat hlon,
    specLifestyleFactor_of_same db u1 u2 f1 f2 hf1 hf2 hfs,
    specGoalsFactor_of_same db u1 u2 g1 g2 hg1 hg2 hgs]
  norm_num

/-- Witness for the amended C5 at a concrete snapshot of two identical
profiles. -/
theorem claim_C5_amended_identical_profiles_score_100_witness :
    (interestsSet dbIdent "alice").Nonempty ∧
    (valuesSetOf dbIdent "alice").Nonempty ∧
    calculate_compatibility_score dbIdent "alice" "bob" = (100, 100) :=
  ⟨by decide, by decide,
    claim_C5_amended_identical_profiles_score_100 dbIdent "alice" "bob"
      (by decide) (by decide) (by decide) (by decide) (by decide) (by decide)
      ⟨"alice", 10, 20⟩ ⟨"bob", 10, 20⟩ rfl rfl rfl rfl
      (lifeRow "alice") (lifeRow "bob") rfl rfl ⟨rfl, rfl, rfl, rfl⟩
      (goalsRow "alice") (goalsRow "bob") rfl rfl ⟨rfl, rfl, rfl⟩⟩

/-- Counterexample to C5 as stated: two users with identical (empty) interest
sets, identical (empty) values sets, identical lifestyle and goals records
and coincident recorded coordinates, whose score is `(30, 30)`, not
`(100, 100)` — the empty-set rule zeroes the two overlap factors. -/
theorem claim_C5_counterexample :
    interestsSet dbEmptySets "alice" = interestsSet dbEmptySets "bob" ∧
    valuesSetOf dbEmptySets "alice" = valuesSetOf dbEmptySets "bob" ∧
    lifeFind dbEmptySets "alice" = some (lifeRow "alice") ∧
    lifeFind dbEmptySets "bob" = some (lifeRow "bob") ∧
    lifestyleSame (lifeRow "alice") (lifeRow "bob") ∧
    goalsFind dbEmptySets "alice" = some (goalsRow "alice") ∧
    goalsFind dbEmptySets "bob" = some (goalsRow "bob") ∧
    goalsSame (goalsRow "alice") (goalsRow "bob") ∧
    locFind dbEmptySets "alice" = some ⟨"alice", 0, 0⟩ ∧
    locFind dbEmptySets "bob" = some ⟨"bob", 0, 0⟩ ∧
    calculate_compatibility_score dbEmptySets "alice" "bob" = (30, 30) ∧
    calculate_compatibility_score dbEmptySets "alice" "bob" ≠ (100, 100) := by
  refine ⟨by decide, by decide, rfl, rfl, ⟨rfl, rfl, rfl, rfl⟩, rfl, rfl, ⟨rfl, rfl, rfl⟩,
    rfl, rfl, ?_, ?_⟩
  · rw [calculate_eq_specFactorSum dbEmptySets "alice" "bob" (by decide) (by decide)]
    unfold specFactorSum
    have e1 : specInterestFactor dbEmptySets "alice" "bob" = 0 := by
      unfold specInterestFactor
      exact specOverlapScore_zero_of_empty _ _ _ (Or.inl (by decide))
    have e2 : specValuesFactor dbEmptySets "alice" "bob" = 0 := by
      unfold specValuesFactor
      exact specOverlapScore_zero_of_empty _ _ _ (Or.inl (by decide))
    rw [e1, e2,
      specLocationFactor_of_coincident dbEmptySets "alice" "bob"
        ⟨"alice", 0, 0⟩ ⟨"bob", 0, 0⟩ rfl rfl rfl rfl,
      specLifestyleFactor_of_same dbEmptySets "alice" "bob"
        (lifeRow "alice") (lifeRow "bob") rfl rfl ⟨rfl, rfl, rfl, rfl⟩,
      specGoalsFactor_of_same dbEmptySets "alice" "bob"
        (goalsRow "alice") (goalsRow "bob") rfl rfl ⟨rfl, rfl, rfl⟩]
    norm_num
  · rw [calculate_eq_specFactorSum dbEmptySets "alice" "bob" (by decide) (by decide)]
    unfold specFactorSum
    have e1 : specInterestFactor dbEmptySets "alice" "bob" = 0 := by
      unfold specInterestFactor
      exact specOverlapScore_zero_of_empty _ _ _ (Or.inl (by decide))
    have e2 : specValuesFactor dbEmptySets "alice" "bob" = 0 := by
      unfold specValuesFactor
      exact specOverlapScore_zero_of_empty _ _ _ (Or.inl (by decide))
    rw [e1, e2,
      specLocationFactor_of_coincident dbEmptySets "alice" "bob"
        ⟨"alice", 0, 0⟩ ⟨"bob", 0, 0⟩ rfl rfl rfl rfl,
      specLifestyleFactor_of_same dbEmptySets "alice" "bob"
        (lifeRow "alice") (lifeRow "bob") rfl rfl ⟨rfl, rfl, rfl, rfl⟩,
      specGoalsFactor_of_same dbEmptySets "alice" "bob"
        (goalsRow "alice") (goalsRow "bob") rfl rfl ⟨rfl, rfl, rfl⟩]
    intro hq
    rw [Prod.mk.injEq] at hq
    norm_num at hq

/-- C2 (amended): for every viewer, snapshot and parameter combination, no ID
from the viewer's exclusion set (self, blocked, matched either side,
reported) ever appears on a discovery-endpoint page or on a
recommendations-endpoint page; on the service-level `get_recommendations`
path, self, blocked and reported IDs never appear, but matched-partner IDs
are *not* excluded there (its matched filter is vacuous — see the
counterexample). -/
theorem claim_C2_amended_exclusion_completeness (db : DB) (uid : String)
    (limit offset : ℕ) (dk minA maxA : ℤ) (sb : String) (i : String) :
    (i ∈ discPageIds (get_discovery db uid dk limit offset minA maxA sb) →
      i ∉ exclusionIds db uid) ∧
    (i ∈ recPageIds (get_user_recommendations db uid limit offset) →
      i ∉ exclusionIds db uid) ∧
    (i ∈ recOutIds (get_recommendations db uid limit offset) →
      i ≠ uid ∧ i ∉ blockedIdsOf db uid ∧ i ∉ reportedIdsOf db uid) :=
  ⟨discPage_not_excluded db uid dk limit offset minA maxA sb i,
   recRouterPage_not_excluded db uid limit offset i,
   svcPage_not_self_blocked_reported db uid limit offset i⟩

/-- Witness for the amended C2: on a concrete snapshot the recommendations
endpoint actually returns the page `["carol"]`, and `carol` is then proved to
be outside the exclusion set by the theorem. -/
theorem claim_C2_amended_exclusion_completeness_witness :
    ("carol" : String) ∉ exclusionIds dbLocated "alice" :=
  (claim_C2_amended_exclusion_completeness dbLocated "alice" 20 0 20 18 50
    "compatibility" "carol").2.1 (by decide)

/-- Counterexample to C2 as stated: in a snapshot where the viewer shares a
non-deleted match with `mark`, the service-level recommendation page still
contains `mark`, an ID of the viewer's matched (hence excluded) set. -/
theorem claim_C2_counterexample :
    ("mark" : String) ∈ matchedPartnerIds dbMatched "alice" ∧
    ("mark" : String) ∈ exclusionIds dbMatched "alice" ∧
    ("mark" : String) ∈ recOutIds (get_recommendations dbMatched "alice" 20 0) := by
  refine ⟨by decide, by decide, by decide⟩
